import Mathlib

/-
Verification of the step-execution and test-gating engine of the
`python-pipeline` repository (`src/pipeline/pl.py`), as a shallow embedding.

Conventions of the embedding:
* Python values returned by predicates are modelled by `PL.PyVal`; the
  source tests them by identity (`out is True or out is 0`, pl.py:625), so
  booleans and integers are kept distinguishable.
* A raised Python exception is modelled by the `Except` error channel; a
  function that also mutates `self` before raising returns
  `StepState × Except PyErr _` so the mutated state survives the raise.
* A pretest/donetest predicate is modelled by the fixed outcome of
  invoking it (`TestSpec.outcome`), together with the flag `isTemplate`
  recording whether `_test_test` (pl.py:979) classifies it as a template
  (an argument contains the `<StepFile>` placeholder).
* Timestamps (`start_time`/`end_time`) and log/save side effects are
  not modelled: no claim mentions them, `save` only pickles state.
* `setup.py` declares Python 3 only (classifiers 3.3-3.5).  Python 3
  unbinds the variable of `except Exception as e` when the except suite
  ends, which matters for the result-collection loop of `run_parallel`
  (pl.py:841-848); the embedding follows Python 3 scoping.
-/

namespace PL

/-- Decidable equality for `Except`, needed so that concrete runs of the
embedded functions can be checked with `decide`. -/
instance {ε α : Type} [DecidableEq ε] [DecidableEq α] :
    DecidableEq (Except ε α) := fun x y =>
  match x, y with
  | .ok a, .ok b =>
    if h : a = b then .isTrue (by rw [h])
    else .isFalse (fun hh => h (Except.ok.inj hh))
  | .error a, .error b =>
    if h : a = b then .isTrue (by rw [h])
    else .isFalse (fun hh => h (Except.error.inj hh))
  | .ok _, .error _ => .isFalse (fun hh => Except.noConfusion hh)
  | .error _, .ok _ => .isFalse (fun hh => Except.noConfusion hh)

/-- Python runtime values returned by test predicates and functions.
`pl.py` distinguishes by identity (`out is True` / `out is 0`), so the
embedding keeps booleans, integers, strings and `None` as separate
constructors. -/
inductive PyVal where
  | vBool : Bool → PyVal
  | vInt : Int → PyVal
  | vStr : String → PyVal
  | vNone : PyVal
deriving DecidableEq, Repr

/-- Outcome of invoking a Python callable via `run_function` (pl.py:1431):
it either returns a value or raises an exception (identified here by a
message string). -/
inductive TestOutcome where
  | ret : PyVal → TestOutcome
  | raised : String → TestOutcome
deriving DecidableEq, Repr

/-- The exceptions of `pl.py` that the embedded control flow can raise. -/
inductive PyErr where
  | failedTest : PyErr
  | stepError : PyErr
  | commandFailed : PyErr
  | multiStepError : List String → PyErr
  | nameError : PyErr
  | keyError : PyErr
  | exc : String → PyErr
deriving DecidableEq, Repr

/-- A pretest/donetest as held on a step: `isTemplate` records whether its
arguments contain the `<StepFile>` placeholder (`_test_test` returns
`False` for those, pl.py:1004-1012), and `outcome` is the result of
invoking the predicate. -/
structure TestSpec where
  isTemplate : Bool
  outcome : TestOutcome
deriving DecidableEq, Repr

/-- The mutable run-state fields of a `Step` (pl.py:523-531). -/
structure StepState where
  done : Bool
  failed : Bool
  failed_pre : Bool
  failed_done : Bool
  code : Option Int
  out : Option PyVal
  err : Option PyVal
deriving DecidableEq, Repr

/-- The state a freshly constructed step starts in (pl.py:523-531). -/
def initStep : StepState :=
  { done := false, failed := false, failed_pre := false, failed_done := false,
    code := none, out := none, err := none }

/-- `Step._test_test` (pl.py:979-1013) restricted to well-formed tests:
`none` for an absent test (Python `None`, falsy), `some false` for a
template test, `some true` otherwise. -/
def testTest (t : Option TestSpec) : Option Bool :=
  match t with
  | none => none
  | some ts => some (!ts.isTemplate)

/-- `Step.run_test` (pl.py:605-635).  Success exactly when the predicate
returns the boolean `True` or the integer `0`; any other return raises
`FailedTest` when `raise_on_fail`, else returns `False`.  An exception
raised by the predicate itself always propagates (there is no
try/except in `run_test`). -/
def run_test (outcome : TestOutcome) (raise_on_fail : Bool) :
    Except PyErr Bool :=
  match outcome with
  | .raised s => .error (.exc s)
  | .ret v =>
    if v = .vBool true ∨ v = .vInt 0 then .ok true
    else if raise_on_fail then .error .failedTest
    else .ok false

/-- `Step.run_done_test` (pl.py:637-674).  Returns the mutated step state
together with the Python result (`Except.error` models a raise). -/
def run_done_test (st : StepState) (dt : Option TestSpec)
    (fail_step_on_error raise_on_fail : Bool) :
    StepState × Except PyErr Bool :=
  match dt with
  | none => (st, .error .stepError)
  | some ts =>
    if ts.isTemplate then
      (st, .ok false)
    else
      match run_test ts.outcome raise_on_fail with
      | .error e =>
        ({ st with done := false,
                   failed := if fail_step_on_error then true else st.failed,
                   failed_done := true },
         if raise_on_fail then .error e else .ok false)
      | .ok out =>
        if out then
          ({ st with done := true, failed := false, failed_done := false },
           .ok true)
        else
          ({ st with done := false,
                     failed := if fail_step_on_error then true else st.failed,
                     failed_done := true },
           .ok false)

/-- `Step.run_pre_test` (pl.py:676-709). -/
def run_pre_test (st : StepState) (pt : Option TestSpec)
    (raise_on_fail : Bool) : StepState × Except PyErr Bool :=
  match pt with
  | none => (st, .error .stepError)
  | some ts =>
    if ts.isTemplate then
      (if raise_on_fail then (st, .error .stepError) else (st, .ok false))
    else
      match run_test ts.outcome raise_on_fail with
      | .error e =>
        ({ st with failed_pre := true },
         if raise_on_fail then .error e else .ok false)
      | .ok out =>
        if out then ({ st with failed_pre := false }, .ok true)
        else ({ st with failed_pre := true }, .ok false)

/-- The dictionary built by `Command._execute` / `Function._execute` and
consumed by `Step._parse_return` (pl.py:924-940).  A field is `none` when
the corresponding key is absent from the dictionary.  The
`start_time`/`end_time` keys are not modelled (timestamps only). -/
structure ReturnDict where
  code : Option Int
  out : Option PyVal
  err : Option PyVal
  done : Option Bool
  failed : Option Bool
  exc : Option PyErr
deriving DecidableEq, Repr

/-- Assign a dictionary value over an attribute when the key is present
(`self.__setattr__(k, v)` in `_parse_return`, pl.py:934-936). -/
def updAttr {α : Type} (new : Option α) (old : α) : α :=
  match new with
  | some v => v
  | none => old

/-- Like `updAttr` but for attributes that are themselves optional
(`code`, `out`, `err` are `None` until first assigned). -/
def updAttrOpt {α : Type} (new : Option α) (old : Option α) : Option α :=
  match new with
  | some v => some v
  | none => old

/-- `Step._parse_return` (pl.py:924-940): every key of the dictionary is
set as an attribute on the step; afterwards, if the `EXCEPTION` key is
present, the stored exception is raised. -/
def parse_return (st : StepState) (d : ReturnDict) :
    StepState × Except PyErr Unit :=
  let st' : StepState :=
    { st with
      done := updAttr d.done st.done,
      failed := updAttr d.failed st.failed,
      code := updAttrOpt d.code st.code,
      out := updAttrOpt d.out st.out,
      err := updAttrOpt d.err st.err }
  match d.exc with
  | some e => (st', .error e)
  | none => (st', .ok ())

/-- What the external world does when the shell line of a `Command` is run
(`run_cmd`/`call`, pl.py:1311-1317): the process finishes with an exit
code, stdout and stderr, or the call itself raises. -/
inductive ExecOutcome where
  | finished : Int → String → String → ExecOutcome
  | raisedDuring : String → ExecOutcome
deriving DecidableEq, Repr

/-- What the registered callable of a `Function` does when invoked
(`run_function`, pl.py:1208): it returns a value or raises. -/
inductive FuncOutcome where
  | returned : PyVal → FuncOutcome
  | raisedDuring : String → FuncOutcome
deriving DecidableEq, Repr

/-- `Command._execute` (pl.py:1289-1334): on a finished process the
dictionary records code/out/err and `done` on exit code 0, `failed`
otherwise; an exception during the call records `failed` and the
`EXCEPTION` key (code/out/err keys stay absent). -/
def commandExecute (r : ExecOutcome) : ReturnDict :=
  match r with
  | .raisedDuring s =>
    { code := none, out := none, err := none, done := none,
      failed := some true, exc := some (.exc s) }
  | .finished c o e =>
    if c = 0 then
      { code := some c, out := some (.vStr o), err := some (.vStr e),
        done := some true, failed := none, exc := none }
    else
      { code := some c, out := some (.vStr o), err := some (.vStr e),
        done := none, failed := some true, exc := none }

/-- `Function._execute` (pl.py:1203-1217): the return value is stored
under `out` and `done` is set on success; a raised error records
`failed` and the `EXCEPTION` key. -/
def functionExecute (r : FuncOutcome) : ReturnDict :=
  match r with
  | .returned v =>
    { code := none, out := some v, err := none,
      done := some true, failed := none, exc := none }
  | .raisedDuring s =>
    { code := none, out := none, err := none, done := none,
      failed := some true, exc := some (.exc s) }

/-- Donetest half of `Step._pre_exec` (pl.py:1022-1025): run the donetest
with `fail_step_on_error=False, raise_on_fail=False` and ignore its
result. -/
def preExecDone (st : StepState) (dt : Option TestSpec) :
    StepState × Except PyErr Bool :=
  if testTest dt = some true then
    ((run_done_test st dt false false).1, .ok true)
  else (st, .ok true)

/-- `Step._pre_exec` (pl.py:1015-1025): run the pretest (raising on
failure), then the donetest as a pre-check whose result is ignored.
Returns `False` only when the pretest returns `False` without raising. -/
def preExec (st : StepState) (pt dt : Option TestSpec) :
    StepState × Except PyErr Bool :=
  if testTest pt = some true then
    match run_pre_test st pt true with
    | (st1, .error e) => (st1, .error e)
    | (st1, .ok pr) =>
      if pr then preExecDone st1 dt else (st1, .ok false)
  else preExecDone st dt

/-- `Step._post_exec` (pl.py:1027-1032): run the donetest with
`fail_step_on_error=True, raise_on_fail=True`. -/
def postExec (st : StepState) (dt : Option TestSpec) :
    StepState × Except PyErr Bool :=
  if testTest dt = some true then
    match run_done_test st dt true true with
    | (st1, .error e) => (st1, .error e)
    | (st1, .ok _) => (st1, .ok true)
  else (st, .ok true)

/-- `Command.run` for a step without a file list (pl.py:1249-1287):
`_pre_exec` (result unused), `_parse_return(self._execute(kind))`, raise
`CommandFailed` when the recorded exit code is not 0, then `_post_exec`. -/
def commandRun (st : StepState) (pt dt : Option TestSpec)
    (r : ExecOutcome) : StepState × Except PyErr Unit :=
  match preExec st pt dt with
  | (st1, .error e) => (st1, .error e)
  | (st1, .ok _) =>
    match parse_return st1 (commandExecute r) with
    | (st2, .error e) => (st2, .error e)
    | (st2, .ok _) =>
      if st2.code ≠ some 0 then (st2, .error .commandFailed)
      else
        match postExec st2 dt with
        | (st3, .error e) => (st3, .error e)
        | (st3, .ok _) => (st3, .ok ())

/-- `Function.run` for a step without a file list (pl.py:1171-1201):
`_pre_exec` (early return when it yields `False`),
`_parse_return(self._execute(kind))`, then `_post_exec`. -/
def functionRun (st : StepState) (pt dt : Option TestSpec)
    (r : FuncOutcome) : StepState × Except PyErr Unit :=
  match preExec st pt dt with
  | (st1, .error e) => (st1, .error e)
  | (st1, .ok pr) =>
    if !pr then (st1, .ok ())
    else
      match parse_return st1 (functionExecute r) with
      | (st2, .error e) => (st2, .error e)
      | (st2, .ok _) =>
        match postExec st2 dt with
        | (st3, .error e) => (st3, .error e)
        | (st3, .ok _) => (st3, .ok ())

/-- A substep of a container `Command` step, as produced by
`_create_substeps`: its run-state, its own tests, its name (the file it
was created from), and the outcome its shell line would produce when
executed (`file_list` of substeps is always `None`, pl.py:969-972). -/
structure SubStep where
  state : StepState
  pretest : Option TestSpec
  donetest : Option TestSpec
  execResult : ExecOutcome
  name : String
deriving DecidableEq, Repr

/-- The donetest pre-check applied to one substep by the loop of
`Step.run_all` (pl.py:779-781): `run_done_test(fail_step_on_error=True,
raise_on_fail=False)` when the substep has a donetest and `force` is
off. -/
def preCheckAll (s : SubStep) (force : Bool) : StepState :=
  if s.donetest.isSome && !force then
    (run_done_test s.state s.donetest true false).1
  else s.state

/-- One iteration of the substep loop of `Step.run_all`
(pl.py:778-785): the pre-check, then `step.run()` when forced or not
done. -/
def runAllStep (s : SubStep) (force : Bool) : SubStep × Except PyErr Unit :=
  if force || !(preCheckAll s force).done then
    ({ s with state :=
        (commandRun (preCheckAll s force) s.pretest s.donetest
          s.execResult).1 },
     (commandRun (preCheckAll s force) s.pretest s.donetest
       s.execResult).2)
  else ({ s with state := preCheckAll s force }, .ok ())

/-- The substep loop of `Step.run_all` (pl.py:778-785).  An exception
from `step.run()` propagates, leaving the remaining substeps
untouched. -/
def runAllLoop : List SubStep → Bool → List SubStep × Except PyErr Unit
  | [], _ => ([], .ok ())
  | s :: rest, force =>
    match runAllStep s force with
    | (s', .error e) => (s' :: rest, .error e)
    | (s', .ok _) =>
      (s' :: (runAllLoop rest force).1, (runAllLoop rest force).2)

/-- First half of the roll-up (pl.py:792-793): `done` is set when no
substep is not-done. -/
def rollupDone (cont : StepState) (subs : List SubStep) : StepState :=
  if subs.all (fun s => s.state.done) then { cont with done := true }
  else cont

/-- The roll-up at the end of `run_all`/`run_parallel`
(pl.py:792-798, 863-869): after the `done` update, any failed substep
forces `done=False, failed=True`, otherwise `failed=False`. -/
def rollup (cont : StepState) (subs : List SubStep) : StepState :=
  if subs.any (fun s => s.state.failed) then
    { rollupDone cont subs with done := false, failed := true }
  else { rollupDone cont subs with failed := false }

/-- The container donetest pre-check of `Step.run_all` (pl.py:769-770):
`run_done_test(fail_step_on_error=False, raise_on_fail=False)` when the
container donetest is ready. -/
def runAllPreDone (c1 : StepState) (dt : Option TestSpec) : StepState :=
  if testTest dt = some true then (run_done_test c1 dt false false).1
  else c1

/-- `Step.run_all` after its pretest phase (pl.py:769-800): container
donetest pre-check, early return when already done and not forced, the
substep loop, the container donetest post-check (`True, True`) with
another early return, then the roll-up. -/
def runAllAfterPre (c1 : StepState) (dt : Option TestSpec)
    (subs : List SubStep) (force : Bool) :
    StepState × List SubStep × Except PyErr Unit :=
  if (runAllPreDone c1 dt).done && !force then
    (runAllPreDone c1 dt, subs, .ok ())
  else
    match runAllLoop subs force with
    | (subs2, .error e) => (runAllPreDone c1 dt, subs2, .error e)
    | (subs2, .ok _) =>
      if testTest dt = some true then
        match run_done_test (runAllPreDone c1 dt) dt true true with
        | (c3, .error e) => (c3, subs2, .error e)
        | (c3, .ok _) =>
          if c3.done && !force then (c3, subs2, .ok ())
          else (rollup c3 subs2, subs2, .ok ())
      else (rollup (runAllPreDone c1 dt) subs2, subs2, .ok ())

/-- `Step.run_all` for a container step with a non-empty file list
(pl.py:755-800).  Substeps are taken as already materialized
(`_create_substeps` runs in `__init__` when a file list is given). -/
def stepRunAll (cont : StepState) (pt dt : Option TestSpec)
    (subs : List SubStep) (force : Bool) :
    StepState × List SubStep × Except PyErr Unit :=
  if testTest pt = some true then
    match run_pre_test cont pt true with
    | (c1, .error e) => (c1, subs, .error e)
    | (c1, .ok pr) =>
      if pr then runAllAfterPre c1 dt subs force else (c1, subs, .ok ())
  else runAllAfterPre cont dt subs force

/-- The donetest pre-check applied to one substep by the dispatch loop
of `Step.run_parallel` (pl.py:831-833): `run_done_test(
fail_step_on_error=False, raise_on_fail=False)` when the substep has a
donetest and `force` is off. -/
def preCheckPar (s : SubStep) (force : Bool) : StepState :=
  if s.donetest.isSome && !force then
    (run_done_test s.state s.donetest false false).1
  else s.state

/-- The dispatch loop of `Step.run_parallel` (pl.py:830-836): after the
pre-check, the `_execute` dictionary of the substep is produced in a worker
when forced or not done (`none` = not dispatched). -/
def dispatch (subs : List SubStep) (force : Bool) :
    List (SubStep × Option ReturnDict) :=
  subs.map (fun s =>
    if force || !(preCheckPar s force).done then
      ({ s with state := preCheckPar s force },
       some (commandExecute s.execResult))
    else ({ s with state := preCheckPar s force }, none))

/-- The `exceptions` dict update of the collection loop
(pl.py:843-846): a raised re-application records the traceback under
the name of the substep. -/
def collectExcs (s : SubStep) (excs : List (String × PyErr))
    (res : Except PyErr Unit) : List (String × PyErr) :=
  match res with
  | .error e => excs ++ [(s.name, e)]
  | .ok _ => excs

/-- The result-collection loop of `Step.run_parallel` (pl.py:839-848):
each dispatched dictionary is re-applied with `_parse_return`; a raised
exception is caught and recorded under the name of the substep; afterwards
`if step.failed: failed_jobs.append(e)` runs — under Python 3 scoping
the name `e` is always unbound at that line (the `except ... as e`
binding is erased when its suite ends), so a failed substep raises
`NameError`, aborting collection for the remaining substeps. -/
def collect : List (SubStep × Option ReturnDict) →
    List (String × PyErr) →
    List SubStep × List (String × PyErr) × Except PyErr Unit
  | [], excs => ([], excs, .ok ())
  | (s, none) :: rest, excs =>
    (s :: (collect rest excs).1, (collect rest excs).2.1,
     (collect rest excs).2.2)
  | (s, some d) :: rest, excs =>
    if (parse_return s.state d).1.failed then
      ({ s with state := (parse_return s.state d).1 } :: rest.map Prod.fst,
       collectExcs s excs (parse_return s.state d).2, .error .nameError)
    else
      ({ s with state := (parse_return s.state d).1 } ::
         (collect rest (collectExcs s excs (parse_return s.state d).2)).1,
       (collect rest (collectExcs s excs (parse_return s.state d).2)).2.1,
       (collect rest (collectExcs s excs (parse_return s.state d).2)).2.2)

/-- `Step.run_parallel` for a container step with a non-empty file list
(pl.py:802-871): `_pre_exec` (bare call), early return when already done
and not forced, dispatch, collection, `MultiStepError` naming every
substep whose re-application raised, the container donetest (`True,
True`), then the roll-up. -/
def stepRunParallel (cont : StepState) (pt dt : Option TestSpec)
    (subs : List SubStep) (force : Bool) :
    StepState × List SubStep × Except PyErr Unit :=
  match preExec cont pt dt with
  | (c1, .error e) => (c1, subs, .error e)
  | (c1, .ok _) =>
    if c1.done && !force then (c1, subs, .ok ())
    else
      match collect (dispatch subs force) [] with
      | (subs2, _, .error e) => (c1, subs2, .error e)
      | (subs2, excs, .ok _) =>
        if excs ≠ [] then
          (c1, subs2, .error (.multiStepError (excs.map Prod.fst)))
        else
          if testTest dt = some true then
            match run_done_test c1 dt true true with
            | (c2, .error e) => (c2, subs2, .error e)
            | (c2, .ok _) => (rollup c2 subs2, subs2, .ok ())
          else (rollup c1 subs2, subs2, .ok ())

/-- The reserved fan-out placeholder (pl.py:45). -/
def REGEX : String := "<StepFile>"

/-- A Python argument payload as accepted by steps: a string, a
list/tuple of strings, or a dict with string values (pl.py:1505). -/
inductive PyArgs where
  | aStr : String → PyArgs
  | aList : List String → PyArgs
  | aDict : List (String × String) → PyArgs
deriving DecidableEq, Repr

/-- Replace every occurrence of the literal placeholder `<StepFile>` in a
character list with `sub` (the pattern has no regex metacharacters, so
`re.sub` with this pattern is literal replacement).  The pattern is
spelled out character by character so the recursion is structural. -/
def subStepFile (sub : List Char) : List Char → List Char
  | '<' :: 'S' :: 't' :: 'e' :: 'p' :: 'F' :: 'i' :: 'l' :: 'e' :: '>' :: rest =>
    sub ++ subStepFile sub rest
  | c :: rest => c :: subStepFile sub rest
  | [] => []

/-- String-level wrapper for `subStepFile`. -/
def pyReplaceStepFile (s file : String) : String :=
  ⟨subStepFile file.data s.data⟩

/-- `sub_args` (pl.py:1499-1523): replace every occurrence of the
placeholder in a string, in every element of a list/tuple, or in every
value (never a key) of a dict. -/
def sub_args (args : PyArgs) (file : String) : PyArgs :=
  match args with
  | .aStr s => .aStr (pyReplaceStepFile s file)
  | .aList l => .aList (l.map (fun a => pyReplaceStepFile a file))
  | .aDict d => .aDict (d.map (fun kv => (kv.1, pyReplaceStepFile kv.2 file)))

/-- The identity and arguments of one substep created by
`_create_substeps` (pl.py:968-977). -/
structure SubstepSpec where
  command : String
  args : Option PyArgs
  name : String
deriving DecidableEq, Repr

/-- The per-file branch of `Step._create_substeps` (pl.py:948-962): when
`args` exist, substitute the placeholder in the args and keep the
command untouched; otherwise, for a `Command`, substitute in the command
string; otherwise raise `StepError` (a function with no args). -/
def createSubstep (isCommand : Bool) (command : String)
    (args : Option PyArgs) (file : String) : Except PyErr SubstepSpec :=
  match args with
  | some a =>
    .ok { command := command, args := some (sub_args a file), name := file }
  | none =>
    if command ≠ "" && isCommand then
      .ok { command := pyReplaceStepFile command file, args := none,
            name := file }
    else .error .stepError

/-- `Step._create_substeps` (pl.py:942-977): one substep per file of the
file list, in order; a `StepError` mid-way aborts construction. -/
def create_substeps (isCommand : Bool) (command : String)
    (args : Option PyArgs) (files : List String) :
    Except PyErr (List SubstepSpec) :=
  files.mapM (createSubstep isCommand command args)

/-- `build_file_list` (pl.py:1461-1496), with file discovery and regex
matching abstracted: `candidates` is the list of names the function
enumerates for the pattern depth and `fileMatch` is `re.match` against
the pattern.  The tail of the function is exact: the matches are
collected in order and `file_list if file_list else None` is returned,
so no matches yields `None`, never an empty list. -/
def build_file_list (fileMatch : String → Bool) (candidates : List String) :
    Option (List String) :=
  let file_list := candidates.filter fileMatch
  if file_list = [] then none else some file_list

/-- The `file_list` argument of `Step.__init__` (pl.py:563-578): absent
(`None`, falsy), a pattern string (`regexPattern` stands for a
non-empty — hence truthy — pattern string, abstracted by its `re.match`
behaviour `fileMatch` as in `build_file_list`), or an explicit list. -/
inductive FileListArg where
  | noList : FileListArg
  | regexPattern : (String → Bool) → FileListArg
  | explicitList : List String → FileListArg

/-- The file-list handling of `Step.__init__` (pl.py:563-578): when the
`file_list` argument is falsy (absent, or an empty explicit list), the
step stores `self.file_list = None` and finishes; otherwise the stored
list is `build_file_list` for a pattern string or the given list, and
`self._create_substeps()` runs (pl.py:574).  `_create_substeps` first
raises `StepError` when the stored `self.file_list` is falsy — `None`
or empty (pl.py:944-945) — then materializes one substep per file
(embedded as `create_substeps`, which can itself raise).  The result is
the stored `file_list` of the completed step, or the construction
error. -/
def stepInitFileList (isCommand : Bool) (command : String)
    (args : Option PyArgs) (arg : FileListArg) (candidates : List String) :
    Except PyErr (Option (List String)) :=
  match arg with
  | .noList => .ok none
  | .regexPattern m =>
    match build_file_list m candidates with
    | none => .error .stepError
    | some fs =>
      if fs = [] then .error .stepError
      else
        match create_substeps isCommand command args fs with
        | .error e => .error e
        | .ok _ => .ok (some fs)
  | .explicitList fs =>
    if fs = [] then .ok none
    else
      match create_substeps isCommand command args fs with
      | .error e => .error e
      | .ok _ => .ok (some fs)

/-- What the Pipeline container stores per step, restricted to the
identity fields the container-level claims need. -/
structure StepRecord where
  command : String
  args : Option PyArgs
deriving DecidableEq, Repr

/-- The `Pipeline` container state (pl.py:63-64): the name-to-step dict
(as an association list) and the order tuple. -/
structure Pipeline where
  order : List String
  steps : List (String × StepRecord)
deriving DecidableEq, Repr

/-- Dict lookup in `Pipeline.steps`. -/
def lookupStep (p : Pipeline) (name : String) : Option StepRecord :=
  (p.steps.find? (fun kv => kv.1 == name)).map Prod.snd

/-- The default name of `add_command` (pl.py:159):
`program.split(' ')[0].split('/')[-1]`. -/
def default_command_name (program : String) : String :=
  (((program.splitOn " ").headD "").splitOn "/").getLastD ""

/-- The name `add_command` registers the step under. -/
def addName (program : String) (nameOpt : Option String) : String :=
  match nameOpt with
  | some n => n
  | none => default_command_name program

/-- `Pipeline.add_command` (pl.py:155-170): when the name is not yet in
the steps dict, the new step is stored and the name appended to the
order tuple; otherwise an error is logged and the state left unchanged —
no exception is raised on a duplicate name.  (Errors that `Command.__init__`
itself can raise for a fresh name, e.g. `PathError`, are outside this
slice and not modelled.) -/
def add_command (p : Pipeline) (program : String) (args : Option PyArgs)
    (nameOpt : Option String) : Except PyErr Pipeline :=
  let name := addName program nameOpt
  if (p.steps.find? (fun kv => kv.1 == name)).isSome then
    .ok p
  else
    .ok { order := p.order ++ [name],
          steps := p.steps ++ [(name, { command := program, args := args })] }

/-- `Pipeline.__getitem__` (pl.py:385-390): a name in the order tuple is
looked up in the steps dict (a Python dict access raises `KeyError` when
the key is missing); any other name returns `None`. -/
def getItem (p : Pipeline) (item : String) : Except PyErr (Option StepRecord) :=
  if p.order.contains item then
    match lookupStep p item with
    | some s => .ok (some s)
    | none => .error .keyError
  else .ok none

/-! Concrete instances used by the theorems of individual claims. -/

/-- C3 counterexample, phase 1: a fresh substep whose command exits 1. -/
def c3sub0 : SubStep :=
  { state := initStep, pretest := none, donetest := none,
    execResult := .finished 1 "" "e", name := "s" }

/-- C3 counterexample: first `run_all`, whose substep fails. -/
def c3phase1 : StepState × List SubStep × Except PyErr Unit :=
  stepRunAll initStep none none [c3sub0] false

/-- C3 counterexample, phase 2: the same substep as left by phase 1, but
its command now exits 0 (the external problem was fixed before the
re-run). -/
def c3sub1 : SubStep :=
  { c3phase1.2.1.getD 0 c3sub0 with execResult := .finished 0 "ok" "" }

/-- C3 counterexample: second `run_all` over the persisted state. -/
def c3phase2 : StepState × List SubStep × Except PyErr Unit :=
  stepRunAll c3phase1.1 none none [c3sub1] false

/-- C3 witness: a fresh substep whose command succeeds. -/
def c3okSub : SubStep :=
  { state := initStep, pretest := none, donetest := none,
    execResult := .finished 0 "o" "", name := "w" }

/-- C3 witness: `run_all` over the single successful substep. -/
def c3okRun : StepState × List SubStep × Except PyErr Unit :=
  stepRunAll initStep none none [c3okSub] false

/-- C6: a substep whose command exits 1 without raising. -/
def c6s1 : SubStep :=
  { state := initStep, pretest := none, donetest := none,
    execResult := .finished 1 "" "boom", name := "a" }

/-- C6: a substep whose command succeeds. -/
def c6s2 : SubStep :=
  { state := initStep, pretest := none, donetest := none,
    execResult := .finished 0 "ok" "", name := "b" }

/-- C6: the parallel run over both substeps. -/
def c6run : StepState × List SubStep × Except PyErr Unit :=
  stepRunParallel initStep none none [c6s1, c6s2] false

/-- C7 counterexample: a substep whose donetest always fails but whose
command succeeds. -/
def c7sub : SubStep :=
  { state := initStep, pretest := none,
    donetest := some ⟨false, .ret (.vBool false)⟩,
    execResult := .finished 0 "ok" "", name := "s" }

/-- C7 witness: first gate-free successful substep. -/
def c7wSub1 : SubStep :=
  { state := initStep, pretest := none, donetest := none,
    execResult := .finished 0 "a" "", name := "w1" }

/-- C7 witness: second gate-free successful substep. -/
def c7wSub2 : SubStep :=
  { state := initStep, pretest := none, donetest := none,
    execResult := .finished 0 "b" "", name := "w2" }

/-- C8/C10: a pipeline already holding a step named `ls`. -/
def lsRecord : StepRecord := { command := "/bin/ls", args := none }

/-- C8/C10: the pipeline state with the single step `ls`. -/
def p0 : Pipeline := { order := ["ls"], steps := [("ls", lsRecord)] }

/-- Success convention of the test gate, as the spec words it: the
predicate returned the boolean `True` or the integer `0`.  Stated
separately from `run_test` so the theorem for C4 can compare the code
against it. -/
def gateSuccess (o : TestOutcome) : Prop :=
  o = .ret (.vBool true) ∨ o = .ret (.vInt 0)

instance (o : TestOutcome) : Decidable (gateSuccess o) := by
  unfold gateSuccess; infer_instance

end PL

namespace PL

/-- `run_pre_test` only ever touches `failed_pre`: `done` and `failed`
are preserved. -/
theorem run_pre_test_flags (st : StepState) (pt : Option TestSpec)
    (rof : Bool) :
    (run_pre_test st pt rof).1.done = st.done
    ∧ (run_pre_test st pt rof).1.failed = st.failed := by
  unfold run_pre_test
  rcases pt with _ | ts
  · exact ⟨rfl, rfl⟩
  · dsimp only
    split
    · split <;> exact ⟨rfl, rfl⟩
    · rcases h : run_test ts.outcome rof with e | b
      · exact ⟨rfl, rfl⟩
      · dsimp only
        split <;> exact ⟨rfl, rfl⟩

/-- A ready test is a present, non-template test. -/
theorem testTest_ready (dt : Option TestSpec) (h : testTest dt = some true) :
    ∃ ts, dt = some ts ∧ ts.isTemplate = false := by
  rcases dt with _ | ts
  · simp [testTest] at h
  · refine ⟨ts, rfl, ?_⟩
    simp [testTest] at h
    simpa using h

/-- `preExecDone` is the identity when the donetest is not ready. -/
theorem preExecDone_not_ready (st : StepState) (dt : Option TestSpec)
    (h : testTest dt ≠ some true) : preExecDone st dt = (st, .ok true) := by
  unfold preExecDone
  rw [if_neg h]

/-- `_pre_exec` preserves `done` and `failed` when the donetest is not
ready (the pretest only touches `failed_pre`). -/
theorem preExec_flags (st : StepState) (pt dt : Option TestSpec)
    (hdt : testTest dt ≠ some true) :
    (preExec st pt dt).1.done = st.done
    ∧ (preExec st pt dt).1.failed = st.failed := by
  unfold preExec
  by_cases hp : testTest pt = some true
  · rw [if_pos hp]
    rcases h : run_pre_test st pt true with ⟨st1, r⟩
    have hf := run_pre_test_flags st pt true
    rw [h] at hf
    rcases r with e | pr
    · exact hf
    · dsimp only
      split
      · rw [preExecDone_not_ready st1 dt hdt]
        exact hf
      · exact hf
  · rw [if_neg hp, preExecDone_not_ready st dt hdt]
    exact ⟨rfl, rfl⟩

/-- With `raise_on_fail=True`, `run_test` can only return `True`; any
failure is a raise. -/
theorem run_test_true_ok (o : TestOutcome) (b : Bool)
    (h : run_test o true = .ok b) : b = true := by
  rcases o with v | s
  · simp only [run_test] at h
    split at h
    · exact (Except.ok.inj h).symm
    · simp at h
  · simp only [run_test] at h
    exact Except.noConfusion h

/-- With `raise_on_fail=True`, a non-raising `run_pre_test` returned
`True`. -/
theorem run_pre_test_true_ok (st : StepState) (pt : Option TestSpec)
    (st' : StepState) (b : Bool)
    (h : run_pre_test st pt true = (st', .ok b)) : b = true := by
  rcases pt with _ | ts
  · simp [run_pre_test, Prod.ext_iff] at h
  · simp only [run_pre_test] at h
    split at h
    · simp [Prod.ext_iff] at h
    · split at h
      · simp [Prod.ext_iff] at h
      · rename_i out heq
        have hout := run_test_true_ok ts.outcome out heq
        subst hout
        simp only [if_pos] at h
        simp [Prod.ext_iff] at h
        exact h.2

/-- With `raise_on_fail=True` and a ready donetest, a non-raising
`run_done_test` succeeded and left the step `done`. -/
theorem run_done_test_true_done (st : StepState) (ts : TestSpec)
    (fse : Bool) (st' : StepState) (b : Bool)
    (htpl : ts.isTemplate = false)
    (h : run_done_test st (some ts) fse true = (st', .ok b)) :
    st'.done = true := by
  simp only [run_done_test, htpl] at h
  rw [if_neg Bool.false_ne_true] at h
  split at h
  · simp [Prod.ext_iff] at h
  · rename_i out heq
    have hout := run_test_true_ok ts.outcome out heq
    subst hout
    simp only [if_pos] at h
    simp [Prod.ext_iff] at h
    rw [← h.1]

/-- `_parse_return` applied to the dictionary of a finished command. -/
theorem parse_return_finished (st1 : StepState) (c : Int) (o e : String) :
    parse_return st1 (commandExecute (.finished c o e)) =
      (if c = 0 then
        ({ st1 with done := true, code := some c, out := some (.vStr o),
                    err := some (.vStr e) }, .ok ())
       else
        ({ st1 with failed := true, code := some c, out := some (.vStr o),
                    err := some (.vStr e) }, .ok ())) := by
  by_cases hc : c = 0 <;>
    simp [commandExecute, parse_return, updAttr, updAttrOpt, hc]

/-- `_parse_return` applied to the dictionary of a command whose call
raised. -/
theorem parse_return_raised (st1 : StepState) (s : String) :
    parse_return st1 (commandExecute (.raisedDuring s)) =
      ({ st1 with failed := true }, .error (.exc s)) := by
  simp [commandExecute, parse_return, updAttr, updAttrOpt]

/-- `_parse_return` applied to the dictionary of a returning function. -/
theorem parse_return_func_returned (st1 : StepState) (v : PyVal) :
    parse_return st1 (functionExecute (.returned v)) =
      ({ st1 with done := true, out := some v }, .ok ()) := by
  simp [functionExecute, parse_return, updAttr, updAttrOpt]

/-- `_parse_return` applied to the dictionary of a raising function. -/
theorem parse_return_func_raised (st1 : StepState) (s : String) :
    parse_return st1 (functionExecute (.raisedDuring s)) =
      ({ st1 with failed := true }, .error (.exc s)) := by
  simp [functionExecute, parse_return, updAttr, updAttrOpt]

/-- `_post_exec` is the identity when the donetest is not ready. -/
theorem postExec_not_ready (st : StepState) (dt : Option TestSpec)
    (h : testTest dt ≠ some true) : postExec st dt = (st, .ok true) := by
  unfold postExec
  rw [if_neg h]

/-- A non-raising `_post_exec` leaves a done step done (a ready donetest
that passed also sets `done`). -/
theorem postExec_ok_done (st2 : StepState) (dt : Option TestSpec)
    (st3 : StepState) (b : Bool) (hd2 : st2.done = true)
    (h : postExec st2 dt = (st3, .ok b)) : st3.done = true := by
  unfold postExec at h
  by_cases hd : testTest dt = some true
  · rw [if_pos hd] at h
    obtain ⟨ts, hts, htpl⟩ := testTest_ready dt hd
    subst hts
    rcases hrdt : run_done_test st2 (some ts) true true with ⟨st4, r4⟩
    rw [hrdt] at h
    rcases r4 with e | b4
    · simp [Prod.ext_iff] at h
    · simp [Prod.ext_iff] at h
      have hdone := run_done_test_true_done st2 ts true st4 b4 htpl hrdt
      rw [← h.1]
      exact hdone
  · rw [if_neg hd] at h
    simp [Prod.ext_iff] at h
    rw [← h.1]
    exact hd2

/-- A `Command.run` that returns normally leaves the step done. -/
theorem commandRun_ok_done (st : StepState) (pt dt : Option TestSpec)
    (r : ExecOutcome) (st' : StepState)
    (h : commandRun st pt dt r = (st', .ok ())) : st'.done = true := by
  unfold commandRun at h
  split at h
  · simp [Prod.ext_iff] at h
  · rename_i st1 u1 hpre
    split at h
    · simp [Prod.ext_iff] at h
    · rename_i st2 u2 hpr
      split at h
      · simp [Prod.ext_iff] at h
      · rename_i hcode
        split at h
        · simp [Prod.ext_iff] at h
        · rename_i st3 b3 hpost
          simp only [Prod.mk.injEq] at h
          obtain ⟨h1, -⟩ := h
          subst h1
          apply postExec_ok_done st2 dt st3 b3 ?_ hpost
          rcases r with ⟨c, o, e⟩ | s
          · rw [parse_return_finished] at hpr
            by_cases hc : c = 0
            · subst hc
              rw [if_pos rfl] at hpr
              simp only [Prod.mk.injEq] at hpr
              obtain ⟨h2, -⟩ := hpr
              rw [← h2]
            · rw [if_neg hc] at hpr
              simp only [Prod.mk.injEq] at hpr
              obtain ⟨h2, -⟩ := hpr
              rw [← h2] at hcode
              exact absurd (by simpa using hcode) hc
          · rw [parse_return_raised] at hpr
            simp [Prod.ext_iff] at hpr

/-- One normally-returning iteration of the `run_all` substep loop
leaves its substep done (either it was already done and was skipped, or
its run succeeded). -/
theorem runAllStep_ok_done (s : SubStep) (force : Bool) (s' : SubStep)
    (h : runAllStep s force = (s', .ok ())) : s'.state.done = true := by
  unfold runAllStep at h
  split at h
  · rcases hcr : commandRun (preCheckAll s force) s.pretest s.donetest
        s.execResult with ⟨st2, r2⟩
    rw [hcr] at h
    rcases r2 with e | u
    · simp [Prod.ext_iff] at h
    · have hdone := commandRun_ok_done (preCheckAll s force) s.pretest
        s.donetest s.execResult st2 hcr
      simp only [Prod.mk.injEq] at h
      obtain ⟨h1, -⟩ := h
      rw [← h1]
      exact hdone
  · rename_i hcond
    simp only [Prod.mk.injEq] at h
    obtain ⟨h1, -⟩ := h
    rw [← h1]
    simp only [Bool.or_eq_true, not_or, Bool.not_eq_true] at hcond
    have h2 := hcond.2
    simp at h2
    exact h2

/-- A normally-returning `run_all` substep loop leaves every substep
done. -/
theorem runAllLoop_all_done (subs : List SubStep) (force : Bool)
    (subs' : List SubStep) (h : runAllLoop subs force = (subs', .ok ())) :
    ∀ s' ∈ subs', s'.state.done = true := by
  induction subs generalizing subs' with
  | nil =>
    simp only [runAllLoop, Prod.mk.injEq] at h
    obtain ⟨h1, -⟩ := h
    intro s' hs'
    rw [← h1] at hs'
    simp at hs'
  | cons s rest ih =>
    unfold runAllLoop at h
    rcases hstep : runAllStep s force with ⟨s1, r1⟩
    rw [hstep] at h
    rcases r1 with e | u
    · simp [Prod.ext_iff] at h
    · dsimp only at h
      rcases htail : runAllLoop rest force with ⟨subs2, r2⟩
      rw [htail] at h
      dsimp only at h
      rcases r2 with e2 | u2
      · simp [Prod.ext_iff] at h
      · simp only [Prod.mk.injEq] at h
        obtain ⟨h1, -⟩ := h
        intro s' hs'
        rw [← h1] at hs'
        rcases List.mem_cons.mp hs' with hm | hm
        · subst hm
          exact runAllStep_ok_done s force s' hstep
        · exact ih subs2 (by rw [htail]) s' hm

/-- The roll-up when every substep is done: `failed` is the disjunction
of the substep `failed` flags, and `done` its negation. -/
theorem rollup_spec (cont : StepState) (subs : List SubStep)
    (hall : subs.all (fun s => s.state.done) = true) :
    (rollup cont subs).failed = subs.any (fun s => s.state.failed)
    ∧ (rollup cont subs).done = !(subs.any (fun s => s.state.failed)) := by
  unfold rollup rollupDone
  rw [if_pos hall]
  cases hany : subs.any (fun s => s.state.failed) <;> simp [hany]

/-- A normally-returning `runAllAfterPre` with no container donetest, on
a container that was not already done, is the substep loop followed by
the roll-up. -/
theorem runAllAfterPre_none_ok (c1 : StepState) (subs : List SubStep)
    (c' : StepState) (subs' : List SubStep) (hd : c1.done = false)
    (h : runAllAfterPre c1 none subs false = (c', subs', .ok ())) :
    runAllLoop subs false = (subs', .ok ()) ∧ c' = rollup c1 subs' := by
  unfold runAllAfterPre at h
  rw [show runAllPreDone c1 none = c1 from by simp [runAllPreDone, testTest]]
    at h
  rw [if_neg (by simp [hd])] at h
  split at h
  · simp [Prod.ext_iff] at h
  · rename_i subs2 u2 hloop
    rw [if_neg (by simp [testTest])] at h
    simp only [Prod.mk.injEq] at h
    obtain ⟨h1, h2, -⟩ := h
    subst h2
    subst h1
    exact ⟨by rw [hloop], rfl⟩

/-- C1 (counterexample): the claim "`done` and `failed` are never both
true for every sequence of operations" is false.  A command step whose
run fails (exit 1, raising `CommandFailed`, leaving `failed=True`) and
is then successfully re-run (exit 0) ends with `done=True` and
`failed=True` simultaneously: the success dictionary of
`Command._execute` sets `done` but never clears `failed`. -/
theorem C1_counterexample :
    (commandRun initStep none none (.finished 1 "" "err")).2
      = .error .commandFailed
    ∧ (commandRun (commandRun initStep none none (.finished 1 "" "err")).1
        none none (.finished 0 "done" "")).2 = .ok ()
    ∧ (commandRun (commandRun initStep none none (.finished 1 "" "err")).1
        none none (.finished 0 "done" "")).1.done = true
    ∧ (commandRun (commandRun initStep none none (.finished 1 "" "err")).1
        none none (.finished 0 "done" "")).1.failed = true := by
  decide

/-- C1 (amended): `done` and `failed` are never both true after a
*single* run of a step from its *initial* state, provided the step has
no ready donetest.  (With a ready donetest, a successful pre-check
followed by a failing execution already sets both; and re-running a
previously failed step whose unit now succeeds sets `done` without
clearing `failed` — see the counterexample.) -/
theorem C1_single_run_invariant (pt dt : Option TestSpec)
    (hdt : testTest dt ≠ some true) (ce : ExecOutcome) (fe : FuncOutcome) :
    ((commandRun initStep pt dt ce).1.done
        && (commandRun initStep pt dt ce).1.failed) = false
    ∧ ((functionRun initStep pt dt fe).1.done
        && (functionRun initStep pt dt fe).1.failed) = false := by
  have hflags := preExec_flags initStep pt dt hdt
  rcases hpre : preExec initStep pt dt with ⟨st1, r1⟩
  rw [hpre] at hflags
  simp only [initStep] at hflags
  obtain ⟨hf1, hf2⟩ := hflags
  constructor
  · unfold commandRun
    rw [hpre]
    rcases r1 with e | u
    · simp [hf1]
    · dsimp only
      rcases ce with ⟨c, o, e⟩ | s
      · rw [parse_return_finished]
        by_cases hc : c = 0
        · subst hc
          rw [if_pos rfl]
          dsimp only
          rw [if_neg (by simp)]
          rw [postExec_not_ready _ dt hdt]
          simp [hf2]
        · rw [if_neg hc]
          dsimp only
          rw [if_pos (by simp [hc])]
          simp [hf1]
      · rw [parse_return_raised]
        simp [hf1]
  · unfold functionRun
    rw [hpre]
    rcases r1 with e | u
    · simp [hf1]
    · dsimp only
      by_cases hu : u = true
      · subst hu
        simp only [Bool.not_true, Bool.false_eq_true, if_false]
        rcases fe with v | s
        · rw [parse_return_func_returned]
          dsimp only
          rw [postExec_not_ready _ dt hdt]
          simp [hf2]
        · rw [parse_return_func_raised]
          simp [hf1]
      · have hu2 : u = false := by
          cases u
          · rfl
          · exact absurd rfl hu
        subst hu2
        simp [hf1, hf2]

/-- Witness for `C1_single_run_invariant` at concrete inputs. -/
theorem C1_single_run_invariant_witness :
    ((commandRun initStep none none (.finished 0 "x" "")).1.done
        && (commandRun initStep none none (.finished 0 "x" "")).1.failed)
      = false
    ∧ ((functionRun initStep none none (.returned .vNone)).1.done
        && (functionRun initStep none none (.returned .vNone)).1.failed)
      = false :=
  C1_single_run_invariant none none (by decide) (.finished 0 "x" "")
    (.returned .vNone)

/-- C2 (code bug): with a ready donetest that succeeds before execution,
`run()` sets `done=True` but does *not* skip the unit of work: the
function is invoked anyway and its return value is stored in `out`
(only `_execute` writes `out`).  The return value of `_pre_exec` reflects
only the pretest, so `Function.run`/`Command.run` never branch on the
donetest pre-check, contradicting the docstring of `Step.__init__`
("execution will be skipped and the step will be marked done"). -/
theorem C2_donetest_skip_not_implemented :
    (functionRun initStep none (some ⟨false, .ret (.vBool true)⟩)
        (.returned (.vStr "ran"))).2 = .ok ()
    ∧ (functionRun initStep none (some ⟨false, .ret (.vBool true)⟩)
        (.returned (.vStr "ran"))).1.done = true
    ∧ (functionRun initStep none (some ⟨false, .ret (.vBool true)⟩)
        (.returned (.vStr "ran"))).1.out = some (.vStr "ran") := by
  decide

/-- C3 (counterexample): after a failed first `run_all` (where the substep
command exited 1, `CommandFailed` propagated, the substep was left
`failed=True`), a second `run_all` whose substep now succeeds completes
normally with every substep `done`, yet the container ends
`done=False`: container `done` is not the conjunction of the substep
`done`. -/
theorem C3_counterexample :
    c3phase1.2.2 = .error .commandFailed
    ∧ (c3phase1.2.1.map (fun s => (s.state.done, s.state.failed)))
        = [(false, true)]
    ∧ c3phase2.2.2 = .ok ()
    ∧ c3phase2.2.1.all (fun s => s.state.done) = true
    ∧ c3phase2.1.done = false
    ∧ c3phase2.1.failed = true := by
  decide

/-- C3 (amended): for a container step that is not already marked done
and has no ready donetest of its own, when `run_all` *returns normally*
every substep ends done, the container `failed` flag equals the
disjunction of the substep `failed` flags, and the container `done`
equals the negation of that disjunction (so a failed substep forces
`failed=True, done=False`).  `done` equals the conjunction of the
substep `done` flags only when no substep is both done and failed; a
substep that failed earlier and was successfully re-run breaks the
conjunction form (see the counterexample). -/
theorem C3_run_all_rollup (cont : StepState) (pt : Option TestSpec)
    (subs : List SubStep) (c' : StepState) (subs' : List SubStep)
    (hdone : cont.done = false)
    (hrun : stepRunAll cont pt none subs false = (c', subs', .ok ())) :
    (∀ s ∈ subs', s.state.done = true)
    ∧ c'.failed = subs'.any (fun s => s.state.failed)
    ∧ c'.done = !(subs'.any (fun s => s.state.failed))
    ∧ (subs'.any (fun s => s.state.failed) = true →
        c'.failed = true ∧ c'.done = false) := by
  have hafter : ∃ c1, c1.done = false
      ∧ runAllAfterPre c1 none subs false = (c', subs', .ok ()) := by
    unfold stepRunAll at hrun
    by_cases hp : testTest pt = some true
    · rw [if_pos hp] at hrun
      rcases hpt : run_pre_test cont pt true with ⟨c1, r1⟩
      rw [hpt] at hrun
      rcases r1 with e | pr
      · simp [Prod.ext_iff] at hrun
      · have hpr := run_pre_test_true_ok cont pt c1 pr hpt
        subst hpr
        dsimp only at hrun
        rw [if_pos rfl] at hrun
        refine ⟨c1, ?_, hrun⟩
        have hfl := run_pre_test_flags cont pt true
        rw [hpt] at hfl
        exact hfl.1.trans hdone
    · rw [if_neg hp] at hrun
      exact ⟨cont, hdone, hrun⟩
  obtain ⟨c1, hc1, h⟩ := hafter
  obtain ⟨hloop, hc'⟩ := runAllAfterPre_none_ok c1 subs c' subs' hc1 h
  have hall := runAllLoop_all_done subs false subs' hloop
  have hallb : subs'.all (fun s => s.state.done) = true := by
    rw [List.all_eq_true]
    intro s hs
    simpa using hall s hs
  obtain ⟨hf, hd⟩ := rollup_spec c1 subs' hallb
  subst hc'
  refine ⟨hall, hf, hd, fun hany => ?_⟩
  constructor
  · rw [hf, hany]
  · rw [hd, hany]
    rfl

/-- Witness for `C3_run_all_rollup`: the property at a concrete
single-substep container. -/
theorem C3_run_all_rollup_witness :
    (∀ s ∈ c3okRun.2.1, s.state.done = true)
    ∧ c3okRun.1.failed = c3okRun.2.1.any (fun s => s.state.failed)
    ∧ c3okRun.1.done = !(c3okRun.2.1.any (fun s => s.state.failed))
    ∧ (c3okRun.2.1.any (fun s => s.state.failed) = true →
        c3okRun.1.failed = true ∧ c3okRun.1.done = false) :=
  C3_run_all_rollup initStep none [c3okSub] c3okRun.1 c3okRun.2.1
    (by decide) (by decide)

/-- C4: a pretest/donetest evaluation succeeds exactly when the
predicate returns the boolean `True` or the integer `0`; any other
return or a raised error is a failure.  On failure the flag
(`failed_done` / `failed_pre`) is recorded on the step, and a
`FailedTest` (for a failing return) or the own error of the predicate (for a
raise) is raised, unless the caller suppressed raising
(`raise_on_fail=False`), in which case `False` is returned instead. -/
theorem C4_test_gate (st : StepState) (ts : TestSpec)
    (hready : ts.isTemplate = false) (fse rof : Bool) :
    (run_test ts.outcome rof = .ok true ↔ gateSuccess ts.outcome)
    ∧ (gateSuccess ts.outcome →
        run_done_test st (some ts) fse rof
          = ({ st with done := true, failed := false, failed_done := false },
             .ok true)
        ∧ run_pre_test st (some ts) rof
            = ({ st with failed_pre := false }, .ok true))
    ∧ (¬gateSuccess ts.outcome →
        (run_done_test st (some ts) fse rof).1.done = false
        ∧ (run_done_test st (some ts) fse rof).1.failed_done = true
        ∧ (run_pre_test st (some ts) rof).1.failed_pre = true
        ∧ (rof = false →
            (run_done_test st (some ts) fse rof).2 = .ok false
            ∧ (run_pre_test st (some ts) rof).2 = .ok false)
        ∧ (rof = true →
            (∀ v, ts.outcome = .ret v →
              (run_done_test st (some ts) fse rof).2 = .error .failedTest
              ∧ (run_pre_test st (some ts) rof).2 = .error .failedTest)
            ∧ (∀ s, ts.outcome = .raised s →
              (run_done_test st (some ts) fse rof).2 = .error (.exc s)
              ∧ (run_pre_test st (some ts) rof).2 = .error (.exc s)))) := by
  rcases ts with ⟨tpl, o⟩
  simp only [TestSpec.isTemplate] at hready
  subst hready
  refine ⟨?_, ?_, ?_⟩
  · rcases o with v | s
    · by_cases hv : v = PyVal.vBool true ∨ v = PyVal.vInt 0
      · rcases hv with rfl | rfl <;> simp [run_test, gateSuccess]
      · simp only [run_test, gateSuccess]
        rw [if_neg hv]
        cases rof <;> simp [hv]
    · simp [run_test, gateSuccess]
  · intro hgs
    dsimp only at hgs
    rcases hgs with rfl | rfl <;>
      simp [run_done_test, run_pre_test, run_test]
  · intro hgs
    dsimp only at hgs
    rcases o with v | s
    · have hv : ¬(v = PyVal.vBool true ∨ v = PyVal.vInt 0) := by
        simpa [gateSuccess] using hgs
      cases rof <;>
        simp [run_done_test, run_pre_test, run_test, hv]
    · cases rof <;>
        simp [run_done_test, run_pre_test, run_test]

/-- Witness for `C4_test_gate`: a suppressed failing donetest returns
`False` instead of raising. -/
theorem C4_test_gate_witness :
    (run_done_test initStep (some ⟨false, .ret (.vBool false)⟩) false
        false).2 = .ok false
    ∧ (run_done_test initStep (some ⟨false, .ret (.vBool false)⟩) false
        false).1.failed_done = true := by
  have h := C4_test_gate initStep ⟨false, .ret (.vBool false)⟩ rfl false false
  have hgs : ¬gateSuccess (TestOutcome.ret (.vBool false)) := by
    simp [gateSuccess]
  exact ⟨((h.2.2 hgs).2.2.2.1 rfl).1, (h.2.2 hgs).2.1⟩

/-- C5 (code bug): fan-out over one file for a command with arguments
that contain no `<StepFile>` placeholder.  `_create_substeps` leaves the
arguments untouched and never appends the file path, contradicting the
documented behaviour ("the filename will be added to the end of the
command or arglist"): the file appears only as the name of the substep. -/
theorem C5_no_trailing_file_appended :
    create_substeps true "/bin/wc" (some (.aList ["-l"])) ["a.txt"]
      = .ok [{ command := "/bin/wc", args := some (.aList ["-l"]),
               name := "a.txt" }] := by
  decide

/-- C6 (code bug): during parallel fan-out, the first collected substep
failed (exit 1, no exception), so `if step.failed:
failed_jobs.append(e)` evaluates the unbound name `e` and raises
`NameError`: collection aborts, the worker result of the second substep is
never re-applied (its state is still the initial state), and no
aggregate error naming the failures is raised. -/
theorem C6_collection_aborts_with_nameerror :
    c6run.2.2 = .error .nameError
    ∧ (c6run.2.1.map (fun s => s.state.failed)) = [true, false]
    ∧ (c6run.2.1.getD 1 c6s1).state = initStep := by
  decide

/-- C7 (counterexample): for the same single-substep fan-out set (a
substep whose donetest always fails but whose command succeeds), serial
`run_all` ends the substep `done=False, failed=True` (the loop
pre-check uses `fail_step_on_error=True` and the post-exec donetest
raises), while `run_parallel` ends it `done=True, failed=False` (its
pre-check uses `fail_step_on_error=False` and no per-substep post
donetest runs): the final `done`/`failed` per substep differ. -/
theorem C7_counterexample :
    ((stepRunAll initStep none none [c7sub] false).2.1.map
        (fun s => (s.state.done, s.state.failed))) = [(false, true)]
    ∧ ((stepRunParallel initStep none none [c7sub] false).2.1.map
        (fun s => (s.state.done, s.state.failed))) = [(true, false)] := by
  decide

/-- The run-state after a successful exit-0 execution is applied. -/
def execApply0 (st : StepState) (o e : String) : StepState :=
  { st with done := true, code := some 0, out := some (.vStr o),
            err := some (.vStr e) }

/-- A gate-free `Command.run` whose process exits 0 records the result
and succeeds. -/
theorem commandRun_success_no_tests (st : StepState) (o e : String) :
    commandRun st none none (.finished 0 o e) =
      (execApply0 st o e, .ok ()) := rfl

/-- For gate-free, initially unfailed substeps whose processes all exit
0, the serial substep loop succeeds and the parallel
dispatch-and-collect loop produces the same substep list, touching
neither the exceptions dict nor the error channel. -/
theorem loop_collect_agree (subs : List SubStep)
    (h : ∀ s ∈ subs, s.pretest = none ∧ s.donetest = none
        ∧ s.state.failed = false
        ∧ ∃ o e, s.execResult = .finished 0 o e) :
    (runAllLoop subs false).2 = .ok ()
    ∧ ∀ excs, collect (dispatch subs false) excs
        = ((runAllLoop subs false).1, excs, .ok ()) := by
  induction subs with
  | nil => exact ⟨rfl, fun excs => rfl⟩
  | cons s rest ih =>
    obtain ⟨hp, hd, hf, o, e, he⟩ := h s (List.mem_cons_self s rest)
    have hrest := ih (fun s' hs' => h s' (List.mem_cons_of_mem s hs'))
    have hpc : preCheckAll s false = s.state := by
      simp [preCheckAll, hd]
    have hpcp : preCheckPar s false = s.state := by
      simp [preCheckPar, hd]
    by_cases hdone : s.state.done = true
    · have hstep : runAllStep s false = (s, .ok ()) := by
        unfold runAllStep
        rw [hpc, if_neg (by simp [hdone])]
      have hdisp : dispatch (s :: rest) false
          = (s, none) :: dispatch rest false := by
        simp [dispatch, hpcp, hdone]
      have hserial : runAllLoop (s :: rest) false
          = (s :: (runAllLoop rest false).1, (runAllLoop rest false).2) := by
        simp only [runAllLoop]
        rw [hstep]
      constructor
      · rw [hserial]
        exact hrest.1
      · intro excs
        rw [hdisp]
        simp only [collect]
        rw [hrest.2 excs, hserial]
    · have hnd : s.state.done = false := by
        cases hv : s.state.done
        · rfl
        · exact absurd hv hdone
      have hstep : runAllStep s false
          = ({ s with state := execApply0 s.state o e }, .ok ()) := by
        unfold runAllStep
        rw [hpc, if_pos (by simp [hnd]), hp, hd, he,
          commandRun_success_no_tests]
      have hdisp : dispatch (s :: rest) false
          = (s, some (commandExecute s.execResult)) ::
              dispatch rest false := by
        simp [dispatch, hpcp, hnd]
      have hserial : runAllLoop (s :: rest) false
          = ({ s with state := execApply0 s.state o e } ::
                (runAllLoop rest false).1, (runAllLoop rest false).2) := by
        simp only [runAllLoop]
        rw [hstep]
      constructor
      · rw [hserial]
        exact hrest.1
      · intro excs
        rw [hdisp]
        simp only [collect]
        rw [he, parse_return_finished, if_pos rfl]
        dsimp only
        rw [hf, if_neg Bool.false_ne_true]
        simp only [collectExcs]
        rw [hrest.2 excs, hserial]
        simp [execApply0]
        exact ⟨hf, he.symm⟩

/-- C7 (amended): for an identical fan-out set of gate-free (no
pretest, no donetest), initially unfailed substeps whose commands all
succeed, and a container that is not already done and has no tests of
its own, serial `run_all` and parallel `run_parallel` produce identical
container state, substep states (hence outputs) and result. -/
theorem C7_serial_parallel_agree (cont : StepState) (subs : List SubStep)
    (hc : cont.done = false)
    (h : ∀ s ∈ subs, s.pretest = none ∧ s.donetest = none
        ∧ s.state.failed = false ∧ ∃ o e, s.execResult = .finished 0 o e) :
    stepRunAll cont none none subs false
      = stepRunParallel cont none none subs false := by
  obtain ⟨hok, hcol⟩ := loop_collect_agree subs h
  unfold stepRunAll
  rw [if_neg (by simp [testTest])]
  unfold runAllAfterPre
  rw [show runAllPreDone cont none = cont from by
    simp [runAllPreDone, testTest]]
  rw [if_neg (by simp [hc])]
  rcases hl : runAllLoop subs false with ⟨subs2, r2⟩
  rw [hl] at hok
  dsimp only at hok
  subst hok
  dsimp only
  rw [if_neg (by simp [testTest])]
  unfold stepRunParallel
  rw [show preExec cont none none = (cont, .ok true) from rfl]
  dsimp only
  rw [if_neg (by simp [hc])]
  rw [hcol [], hl]
  dsimp only
  rw [if_neg (by simp), if_neg (by simp [testTest])]

/-- Witness for `C7_serial_parallel_agree` at a concrete two-substep
fan-out set. -/
theorem C7_serial_parallel_agree_witness :
    stepRunAll initStep none none [c7wSub1, c7wSub2] false
      = stepRunParallel initStep none none [c7wSub1, c7wSub2] false :=
  C7_serial_parallel_agree initStep [c7wSub1, c7wSub2] (by decide)
    (by
      intro s hs
      rcases List.mem_cons.mp hs with rfl | hs2
      · exact ⟨rfl, rfl, rfl, "a", "", rfl⟩
      · rcases List.mem_cons.mp hs2 with rfl | hs3
        · exact ⟨rfl, rfl, rfl, "b", "", rfl⟩
        · simp at hs3)

/-- C8 (counterexample): adding a command under a name already present
returns normally (the source only logs an error) — no
`DuplicateNameError` (no such exception exists in the code) is raised —
and the pipeline is returned unchanged. -/
theorem C8_counterexample :
    add_command p0 "/bin/ls" none (some "ls") = .ok p0 := by
  decide

/-- C8 (amended): on a name collision, `add_command` leaves the existing
step, the order tuple and the name-to-step map unchanged (the existing
step is never overwritten); it logs an error and returns normally
instead of raising. -/
theorem C8_duplicate_add_is_noop (p : Pipeline) (program : String)
    (args : Option PyArgs) (nameOpt : Option String)
    (hdup : (p.steps.find?
        (fun kv => kv.1 == addName program nameOpt)).isSome = true) :
    add_command p program args nameOpt = .ok p := by
  unfold add_command
  simp [hdup]

/-- Witness for `C8_duplicate_add_is_noop` at a concrete pipeline. -/
theorem C8_duplicate_add_is_noop_witness :
    add_command p0 "ls arg" (some (.aStr "x")) (some "ls") = .ok p0 :=
  C8_duplicate_add_is_noop p0 "ls arg" (some (.aStr "x")) (some "ls")
    (by decide)

/-- C9: when discovery matches no candidate, `build_file_list` returns
`None` — a distinguished "no fan-out" value different from an empty
list (for a no-match input it returns no `some` list at all) — and a
step whose fan-out was requested but matched nothing is distinguishable
from a step with no fan-out requested: the former fails construction
with `StepError` (`_create_substeps`, called from `Step.__init__` at
pl.py:574, raises on the falsy stored `file_list`), while the latter
completes normally with `file_list=None`. -/
theorem C9_no_match_distinguishable (m : String → Bool)
    (cands : List String) (isCommand : Bool) (command : String)
    (args : Option PyArgs) (h : cands.filter m = []) :
    build_file_list m cands = none
    ∧ (∀ l : List String, build_file_list m cands ≠ some l)
    ∧ stepInitFileList isCommand command args (.regexPattern m) cands
        = .error .stepError
    ∧ stepInitFileList isCommand command args .noList cands = .ok none
    ∧ stepInitFileList isCommand command args (.regexPattern m) cands
        ≠ stepInitFileList isCommand command args .noList cands := by
  have h1 : build_file_list m cands = none := by
    simp [build_file_list, h]
  have h2 : stepInitFileList isCommand command args (.regexPattern m)
      cands = .error .stepError := by
    simp [stepInitFileList, h1]
  refine ⟨h1, ?_, h2, rfl, ?_⟩
  · intro l
    rw [h1]
    simp
  · rw [h2]
    simp [stepInitFileList]

/-- Witness for `C9_no_match_distinguishable` at a concrete matcher,
candidate list and step shape. -/
theorem C9_no_match_distinguishable_witness :
    build_file_list (fun f => f == "x.txt") ["a.txt"] = none
    ∧ (∀ l : List String,
        build_file_list (fun f => f == "x.txt") ["a.txt"] ≠ some l)
    ∧ stepInitFileList true "/bin/wc" none
        (.regexPattern (fun f => f == "x.txt")) ["a.txt"]
        = .error .stepError
    ∧ stepInitFileList true "/bin/wc" none .noList ["a.txt"] = .ok none
    ∧ stepInitFileList true "/bin/wc" none
        (.regexPattern (fun f => f == "x.txt")) ["a.txt"]
        ≠ stepInitFileList true "/bin/wc" none .noList ["a.txt"] :=
  C9_no_match_distinguishable (fun f => f == "x.txt") ["a.txt"] true
    "/bin/wc" none (by decide)

/-- C10: `Pipeline.__getitem__` returns `None` (without raising) for any
name not in the order tuple, and the mapped step for a name in the
order tuple. -/
theorem C10_getitem (p : Pipeline) (item : String) :
    (p.order.contains item = false → getItem p item = .ok none)
    ∧ (∀ r : StepRecord, p.order.contains item = true →
        lookupStep p item = some r → getItem p item = .ok (some r)) := by
  constructor
  · intro h
    have h' : item ∉ p.order := by simpa using h
    simp [getItem, h']
  · intro r h1 h2
    have h1' : item ∈ p.order := by simpa using h1
    simp [getItem, h1', h2]

/-- Witness for `C10_getitem`: an unknown name yields `None`, a known
name yields its step. -/
theorem C10_getitem_witness :
    getItem p0 "missing" = .ok none ∧ getItem p0 "ls" = .ok (some lsRecord) :=
  ⟨(C10_getitem p0 "missing").1 (by decide),
   (C10_getitem p0 "ls").2 lsRecord (by decide) (by decide)⟩

end PL
